import Mathlib

/-!
Verification development for the SPC hackathon backend.

The definitions below are a shallow embedding of the hackathon / registration
domain logic: the Mongoose schema hooks and instance methods
(`hackathonModel`, `hackathonRegistrationModel`) and the request handlers
(`hackathonController`, `hackathonRegistrationController`).  Instants are
modelled as integers (milliseconds since the epoch), the document store as
explicit lists of records, and each handler's business logic (after the
authentication / authorization steps, which are out of scope) as a total
function returning `Except` of a tagged denial kind.
-/

namespace SPC


/-- Registration `status` enumeration of `hackathonRegistrationSchema`. -/
inductive RegStatus
  | pending
  | confirmed
  | waitlisted
  | rejected
  | cancelled
deriving DecidableEq, Repr

/-- Hackathon `status` enumeration of `hackathonSchema`. -/
inductive HackStatus
  | draft
  | published
  | ongoing
  | completed
  | cancelled
deriving DecidableEq, Repr

/-- Enumeration `participationType` of `hackathonRegistrationSchema`. -/
inductive ParticipationType
  | solo
  | team
deriving DecidableEq, Repr

/-- One entry of `teamMembers` (the `teamMemberSchema`). -/
structure TeamMember where
  name : String
  email : String
  role : String
deriving DecidableEq, Repr

/-- One entry of `judgingCriteria` (the `judgingCriteriaSchema`). -/
structure JudgingCriterion where
  criterion : String
  weight : Int
deriving DecidableEq, Repr

/-- A `Hackathon` document, restricted to the fields the domain rules read. -/
structure Hackathon where
  id : Nat
  startDate : Int
  endDate : Int
  registrationDeadline : Int
  teamSizeMin : Int
  teamSizeMax : Int
  maxParticipants : Int
  judgingCriteria : List JudgingCriterion
  status : HackStatus
  registrationCount : Int
deriving DecidableEq, Repr

/-- The project payload a participant submits (`req.body` of `submitProject`). -/
structure ProjectData where
  title : String
  description : String
  githubRepo : String
deriving DecidableEq, Repr

/-- Stored `projectDetails`: the submitted payload plus `submissionTime`. -/
structure ProjectDetails where
  data : ProjectData
  submissionTime : Int
deriving DecidableEq, Repr

/-- A `HackathonRegistration` document, restricted to the fields the domain
rules read. -/
structure Registration where
  id : Nat
  hackathon : Nat
  user : Nat
  participationType : ParticipationType
  teamName : String
  teamMembers : List TeamMember
  status : RegStatus
  checkedIn : Bool
  checkInTime : Option Int
  projectSubmitted : Bool
  projectDetails : Option ProjectDetails
  agreeToTerms : Bool
  agreeToCodeOfConduct : Bool
  skillSet : List String
  organizationName : String
deriving DecidableEq, Repr

/-- Denial kinds: each constructor stands for one distinct error response the
handlers or schema hooks can produce. -/
inductive ApiError
  | hackathonNotFound
  | registrationNotFound
  | hackathonNotRegistrable
  | duplicateRegistration
  | teamNameRequired
  | teamMembersRequired
  | teamSizeOutOfBounds
  | consentRequired
  | alreadyCancelled
  | pastCancellationDeadline
  | alreadyCheckedIn
  | hackathonNotStarted
  | alreadySubmitted
  | endDateNotAfterStart
  | deadlineNotBeforeStart
  | teamSizeMinExceedsMax
  | weightsMustSumTo100
  | hasActiveRegistrations
deriving DecidableEq, Repr

/-- Embedding of `hackathonSchema.methods.canRegister`: registration is possible while the
deadline has not passed, capacity is not reached and the stored status is
`published`. -/
def Hackathon.canRegister (h : Hackathon) (now : Int) : Bool :=
  decide (now ≤ h.registrationDeadline) &&
  decide (h.registrationCount < h.maxParticipants) &&
  decide (h.status = HackStatus.published)

/-- The `reduce` over `judgingCriteria` in the hackathon pre-save hook. -/
def judgingWeightTotal (cs : List JudgingCriterion) : Int :=
  cs.foldl (fun s c => s + c.weight) 0

/-- The `hackathonSchema.pre('save')` hook: date ordering, team-size bounds
and the judging-weight sum, checked in source order. -/
def hackathonPreSaveValidate (h : Hackathon) : Except ApiError Unit :=
  if h.startDate ≥ h.endDate then Except.error ApiError.endDateNotAfterStart
  else if h.registrationDeadline ≥ h.startDate then
    Except.error ApiError.deadlineNotBeforeStart
  else if h.teamSizeMin > h.teamSizeMax then
    Except.error ApiError.teamSizeMinExceedsMax
  else if 0 < h.judgingCriteria.length ∧ judgingWeightTotal h.judgingCriteria ≠ 100 then
    Except.error ApiError.weightsMustSumTo100
  else Except.ok ()

/-- Count of documents whose `hackathon` reference is `hid` and whose status
is not `cancelled` (the `countDocuments` query of the model). -/
def nonCancelledCount (regs : List Registration) (hid : Nat) : Nat :=
  regs.countP (fun r => decide (r.hackathon = hid) && decide (r.status ≠ RegStatus.cancelled))

/-- Embedding of `hackathonSchema.methods.updateRegistrationCount`: store the number of
non-cancelled registrations referencing this hackathon. -/
def Hackathon.updateRegistrationCount (h : Hackathon) (regs : List Registration) : Hackathon :=
  { h with registrationCount := (nonCancelledCount regs h.id : Int) }

/-- Effective team size, as computed in the registration pre-save hook:
`1` for solo, `teamMembers.length + 1` for team. -/
def Registration.teamSize (r : Registration) : Int :=
  if r.participationType = ParticipationType.solo then 1
  else (r.teamMembers.length : Int) + 1

/-- The check `!this.teamName || this.teamName.trim() === ''` of the
registration pre-save hook: the string is empty or consists of whitespace
only (so that trimming leaves the empty string). -/
def isBlankString (s : String) : Bool :=
  s.toList.all fun c => c.isWhitespace

/-- The `hackathonRegistrationSchema.pre('save')` hook: team-field presence,
then (for a new document) the hackathon lookup, `canRegister` and team-size
bounds, then the consent flags — in source order. -/
def registrationPreSave (r : Registration) (isNew : Bool)
    (lookup : Nat → Option Hackathon) (now : Int) : Except ApiError Unit :=
  if r.participationType = ParticipationType.team ∧ isBlankString r.teamName = true then
    Except.error ApiError.teamNameRequired
  else if r.participationType = ParticipationType.team ∧ r.teamMembers.length = 0 then
    Except.error ApiError.teamMembersRequired
  else
    let newChecks : Except ApiError Unit :=
      if isNew then
        match lookup r.hackathon with
        | none => Except.error ApiError.hackathonNotFound
        | some h =>
          if h.canRegister now = false then Except.error ApiError.hackathonNotRegistrable
          else if r.teamSize < h.teamSizeMin ∨ r.teamSize > h.teamSizeMax then
            Except.error ApiError.teamSizeOutOfBounds
          else Except.ok ()
      else Except.ok ()
    match newChecks with
    | Except.error e => Except.error e
    | Except.ok _ =>
      if r.agreeToTerms = false ∨ r.agreeToCodeOfConduct = false then
        Except.error ApiError.consentRequired
      else Except.ok ()

deriving instance DecidableEq for Except

/-- The document store: all hackathons and all registrations. -/
structure DbState where
  hackathons : List Hackathon
  registrations : List Registration
deriving DecidableEq, Repr

/-- Embedding of `Hackathon.findById`. -/
def findHackathonById (st : DbState) (hid : Nat) : Option Hackathon :=
  st.hackathons.find? (fun h => decide (h.id = hid))

/-- Embedding of the duplicate lookup `HackathonRegistration.findOne` on the
hackathon and user pair — note: no status filter, a cancelled registration is
found too. -/
def findRegistrationByPair (st : DbState) (hid uid : Nat) : Option Registration :=
  st.registrations.find? (fun r => decide (r.hackathon = hid) && decide (r.user = uid))

/-- Embedding of `HackathonRegistration.findById`. -/
def findRegistrationById (st : DbState) (rid : Nat) : Option Registration :=
  st.registrations.find? (fun r => decide (r.id = rid))

/-- Persist `updateRegistrationCount` on the hackathon identified by `hid`. -/
def DbState.refreshCount (st : DbState) (hid : Nat) : DbState :=
  { st with hackathons := st.hackathons.map (fun h =>
      if h.id = hid then h.updateRegistrationCount st.registrations else h) }

/-- The registration document built by `registerForHackathon`: the request
body plus the hackathon / user references and `status: 'confirmed'`
(auto-confirm). -/
structure RegistrationInput where
  participationType : ParticipationType
  teamName : String
  teamMembers : List TeamMember
  agreeToTerms : Bool
  agreeToCodeOfConduct : Bool
  skillSet : List String
  organizationName : String
deriving DecidableEq, Repr

/-- Embedding of `new HackathonRegistration(registrationData)` with
`status: 'confirmed'` set by the controller. -/
def mkRegistration (newId hid uid : Nat) (input : RegistrationInput) : Registration :=
  { id := newId
    hackathon := hid
    user := uid
    participationType := input.participationType
    teamName := input.teamName
    teamMembers := input.teamMembers
    status := RegStatus.confirmed
    checkedIn := false
    checkInTime := none
    projectSubmitted := false
    projectDetails := none
    agreeToTerms := input.agreeToTerms
    agreeToCodeOfConduct := input.agreeToCodeOfConduct
    skillSet := input.skillSet
    organizationName := input.organizationName }

/-- Embedding of `registerForHackathon` (post-authentication): hackathon lookup,
`canRegister`, the duplicate lookup on the (hackathon, user) pair, then the
save with its pre-save hook, the insert and the count refresh. -/
def registerForHackathon (st : DbState) (hid uid : Nat) (input : RegistrationInput)
    (now : Int) (newId : Nat) : Except ApiError (DbState × Registration) :=
  match findHackathonById st hid with
  | none => Except.error ApiError.hackathonNotFound
  | some hack =>
    if hack.canRegister now = false then Except.error ApiError.hackathonNotRegistrable
    else
      match findRegistrationByPair st hid uid with
      | some _ => Except.error ApiError.duplicateRegistration
      | none =>
        let reg := mkRegistration newId hid uid input
        match registrationPreSave reg true (findHackathonById st) now with
        | Except.error e => Except.error e
        | Except.ok _ =>
          let st1 : DbState := { st with registrations := reg :: st.registrations }
          Except.ok (st1.refreshCount hid, reg)

/-- Embedding of `cancelRegistration` (post-authentication): already-cancelled check, then
the 24-hour deadline `startDate − 24·60·60·1000`, then the status write and
the count refresh. -/
def cancelRegistration (st : DbState) (rid : Nat) (now : Int) :
    Except ApiError (DbState × Registration) :=
  match findRegistrationById st rid with
  | none => Except.error ApiError.registrationNotFound
  | some reg =>
    if reg.status = RegStatus.cancelled then Except.error ApiError.alreadyCancelled
    else
      match findHackathonById st reg.hackathon with
      | none => Except.error ApiError.hackathonNotFound
      | some hack =>
        if hack.startDate - 24 * 60 * 60 * 1000 ≤ now then
          Except.error ApiError.pastCancellationDeadline
        else
          let reg' := { reg with status := RegStatus.cancelled }
          let regs' := st.registrations.map (fun x => if x.id = rid then reg' else x)
          let st1 : DbState := { st with registrations := regs' }
          Except.ok (st1.refreshCount reg.hackathon, reg')

/-- Embedding of `checkInParticipant` (post-authentication): `checkedIn` guard, start-date
guard, then `registration.checkIn()` which sets the flag and the time.
The registration's `status` field is never consulted. -/
def checkInParticipant (reg : Registration) (hack : Hackathon) (now : Int) :
    Except ApiError Registration :=
  if reg.checkedIn then Except.error ApiError.alreadyCheckedIn
  else if now < hack.startDate then Except.error ApiError.hackathonNotStarted
  else Except.ok { reg with checkedIn := true, checkInTime := some now }

/-- Embedding of `submitProject` (post-authentication): `projectSubmitted` guard,
start-date guard, then `registration.submitProject(req.body)` which stores the
payload plus `submissionTime`.  The `status` field is never consulted. -/
def submitProject (reg : Registration) (hack : Hackathon) (pd : ProjectData) (now : Int) :
    Except ApiError Registration :=
  if reg.projectSubmitted then Except.error ApiError.alreadySubmitted
  else if now < hack.startDate then Except.error ApiError.hackathonNotStarted
  else
    let pds : ProjectDetails := { data := pd, submissionTime := now }
    Except.ok { reg with projectSubmitted := true, projectDetails := some pds }

/-- Embedding of `deleteHackathon` (post-authentication): count the non-cancelled
registrations referencing the hackathon; deny when positive, otherwise
physically delete the document. -/
def deleteHackathon (st : DbState) (hid : Nat) : Except ApiError DbState :=
  match findHackathonById st hid with
  | none => Except.error ApiError.hackathonNotFound
  | some _ =>
    if 0 < nonCancelledCount st.registrations hid then
      Except.error ApiError.hasActiveRegistrations
    else
      Except.ok { st with hackathons := st.hackathons.filter (fun h => decide (¬ h.id = hid)) }

/-- The record produced by `HackathonRegistration.getStats`: exactly the
fields of the aggregation's `$group` stage. -/
structure RegStats where
  total : Nat
  confirmed : Nat
  pending : Nat
  cancelled : Nat
  checkedIn : Nat
  projectsSubmitted : Nat
  soloParticipants : Nat
  teamParticipants : Nat
deriving DecidableEq, Repr

/-- The zero row the aggregation starts from (also the empty-result default). -/
def emptyStats : RegStats :=
  { total := 0, confirmed := 0, pending := 0, cancelled := 0, checkedIn := 0,
    projectsSubmitted := 0, soloParticipants := 0, teamParticipants := 0 }

/-- One step of the `$group` accumulation: each `$sum` of a `$cond`. -/
def statsAccum (acc : RegStats) (r : Registration) : RegStats :=
  { total := acc.total + 1
    confirmed := acc.confirmed + (if r.status = RegStatus.confirmed then 1 else 0)
    pending := acc.pending + (if r.status = RegStatus.pending then 1 else 0)
    cancelled := acc.cancelled + (if r.status = RegStatus.cancelled then 1 else 0)
    checkedIn := acc.checkedIn + (if r.checkedIn then 1 else 0)
    projectsSubmitted := acc.projectsSubmitted + (if r.projectSubmitted then 1 else 0)
    soloParticipants := acc.soloParticipants +
      (if r.participationType = ParticipationType.solo then 1 else 0)
    teamParticipants := acc.teamParticipants +
      (if r.participationType = ParticipationType.team then 1 else 0) }

/-- Embedding of `hackathonRegistrationSchema.statics.getStats`: a single pass over the
registrations of one hackathon. -/
def getStats (regs : List Registration) : RegStats :=
  regs.foldl statsAccum emptyStats

/-! Concrete fixtures, used for witnesses and counterexamples. -/

/-- A published hackathon: starts at `10^9` ms, registration deadline
`5·10^8` ms, capacity 100, no registrations counted yet. -/
def hackC : Hackathon :=
  { id := 1, startDate := 1000000000, endDate := 2000000000,
    registrationDeadline := 500000000, teamSizeMin := 1, teamSizeMax := 4,
    maxParticipants := 100, judgingCriteria := [], status := HackStatus.published,
    registrationCount := 0 }

/-- A confirmed solo registration of user 2 on hackathon 1. -/
def regC : Registration :=
  { id := 1, hackathon := 1, user := 2, participationType := ParticipationType.solo,
    teamName := "", teamMembers := [], status := RegStatus.confirmed,
    checkedIn := false, checkInTime := none, projectSubmitted := false,
    projectDetails := none, agreeToTerms := true, agreeToCodeOfConduct := true,
    skillSet := ["js"], organizationName := "Org" }

/-- Store holding `hackC` and the confirmed registration `regC`. -/
def stC : DbState := { hackathons := [hackC], registrations := [regC] }

/-- Fixture `hackC` at full capacity: 10 of 10 places taken. -/
def hackFull : Hackathon := { hackC with maxParticipants := 10, registrationCount := 10 }

/-- Fixture `hackC` one under capacity: 9 of 10 places taken. -/
def hackNine : Hackathon := { hackC with maxParticipants := 10, registrationCount := 9 }

/-- Fixture `regC` after cancellation. -/
def regCancelledC : Registration := { regC with status := RegStatus.cancelled }

/-- Store holding `hackC` and only the cancelled registration of the
(hackathon 1, user 2) pair. -/
def stCancelledPair : DbState := { hackathons := [hackC], registrations := [regCancelledC] }

/-- A solo registration request body with both consent flags set. -/
def inputSolo : RegistrationInput :=
  { participationType := ParticipationType.solo, teamName := "", teamMembers := [],
    agreeToTerms := true, agreeToCodeOfConduct := true, skillSet := ["js"],
    organizationName := "Org" }

/-- The spec scenario request body: team "Foo" with one listed member
(two people including the registrant), both consent flags set. -/
def inputTeam : RegistrationInput :=
  { participationType := ParticipationType.team, teamName := "Foo",
    teamMembers := [{ name := "Alice", email := "a@x.com", role := "dev" }],
    agreeToTerms := true, agreeToCodeOfConduct := true, skillSet := ["js"],
    organizationName := "Org" }

/-- The spec scenario hackathon: published, team sizes 1..3, deadline ahead. -/
def hackScen : Hackathon := { hackC with teamSizeMax := 3 }

/-- The registration `registerForHackathon` builds in the spec scenario. -/
def regScen : Registration := mkRegistration 7 1 2 inputTeam

/-- Store before the spec scenario registration. -/
def stScen : DbState := { hackathons := [hackScen], registrations := [] }

/-- Store after the spec scenario registration: the document inserted and the
count refreshed to 1. -/
def stScen2 : DbState :=
  { hackathons := [{ hackScen with registrationCount := 1 }], registrations := [regScen] }

/-- Fixture `hackC` with judging weights 40, 30, 30 (sum 100). -/
def hackW100 : Hackathon :=
  { hackC with judgingCriteria := [⟨"a", 40⟩, ⟨"b", 30⟩, ⟨"c", 30⟩] }

/-- Fixture `hackC` with judging weights 40, 30, 20 (sum 90). -/
def hackW90 : Hackathon :=
  { hackC with judgingCriteria := [⟨"a", 40⟩, ⟨"b", 30⟩, ⟨"c", 20⟩] }

/-- Fixture `regC` with status `waitlisted`. -/
def regWaitC : Registration := { regC with status := RegStatus.waitlisted }

/-- A sample project payload. -/
def pdSample : ProjectData := { title := "t", description := "d", githubRepo := "g" }

/-- Fixture `regCancelledC` after a successful check-in at `1.5·10^9` ms. -/
def regCancelledCheckedIn : Registration :=
  { regCancelledC with checkedIn := true, checkInTime := some 1500000000 }

/-- Fixture `regCancelledC` after a successful project submission at `1.5·10^9` ms. -/
def regCancelledSubmitted : Registration :=
  { regCancelledC with projectSubmitted := true, projectDetails := some { data := pdSample, submissionTime := 1500000000 } }

/-- Fixture `regC` after a successful check-in exactly at the start date. -/
def regCheckedInAtStart : Registration :=
  { regC with checkedIn := true, checkInTime := some 1000000000 }

/-! Theorems. -/

/-- Claim C4: `canRegister(hackathon, now)` returns true if and only if
`now ≤ registrationDeadline` and `registrationCount < maxParticipants` and the
stored status is `published`; consequently at `maxParticipants = 10` and
`registrationCount = 10` registration before the deadline is denied, while at
`registrationCount = 9` it is permitted. -/
theorem canRegister_characterization :
    (∀ (h : Hackathon) (now : Int), h.canRegister now = true ↔
      (now ≤ h.registrationDeadline ∧ h.registrationCount < h.maxParticipants ∧
        h.status = HackStatus.published)) ∧
    hackFull.canRegister 0 = false ∧ hackNine.canRegister 0 = true := by
  refine ⟨fun h now => ?_, by decide, by decide⟩
  simp [Hackathon.canRegister, Bool.and_eq_true, decide_eq_true_eq, and_assoc]

/-- Claim C5: the hackathon pre-save validity rules accept a definition exactly when
`startDate < endDate`, `registrationDeadline < startDate`,
`teamSizeMin ≤ teamSizeMax`, and a non-empty `judgingCriteria` list sums to
exactly 100; weights 40, 30, 30 are accepted and 40, 30, 20 rejected. -/
theorem hackathonValidity_characterization :
    (∀ h : Hackathon, hackathonPreSaveValidate h = Except.ok () ↔
      (h.startDate < h.endDate ∧ h.registrationDeadline < h.startDate ∧
        h.teamSizeMin ≤ h.teamSizeMax ∧
        (h.judgingCriteria ≠ [] → judgingWeightTotal h.judgingCriteria = 100))) ∧
    hackathonPreSaveValidate hackW100 = Except.ok () ∧
    hackathonPreSaveValidate hackW90 = Except.error ApiError.weightsMustSumTo100 := by
  refine ⟨fun h => ?_, by rfl, by rfl⟩
  unfold hackathonPreSaveValidate
  split_ifs with h1 h2 h3 h4
  · simp only [reduceCtorEq, false_iff]
    rintro ⟨hlt, -, -, -⟩
    omega
  · simp only [reduceCtorEq, false_iff]
    rintro ⟨-, hlt, -, -⟩
    omega
  · simp only [reduceCtorEq, false_iff]
    rintro ⟨-, -, hle, -⟩
    omega
  · simp only [reduceCtorEq, false_iff]
    rintro ⟨-, -, -, hw⟩
    exact h4.2 (hw (List.length_pos.mp h4.1))
  · simp only [true_iff]
    refine ⟨by omega, by omega, by omega, fun hne => ?_⟩
    rcases Decidable.not_and_iff_or_not.mp h4 with h | h
    · exact absurd (List.length_pos.mpr hne) h
    · exact Decidable.not_not.mp h

/-- Claim C8: after `updateRegistrationCount`, the stored `registrationCount`
equals the number of registrations referencing the hackathon whose status is
not `cancelled`, and is therefore non-negative. -/
theorem updateRegistrationCount_correct :
    ∀ (h : Hackathon) (regs : List Registration),
      (h.updateRegistrationCount regs).registrationCount =
        ((regs.countP (fun r => decide (r.hackathon = h.id) &&
          decide (r.status ≠ RegStatus.cancelled)) : Nat) : Int) ∧
      0 ≤ (h.updateRegistrationCount regs).registrationCount := by
  intro h regs
  exact ⟨rfl, Int.natCast_nonneg _⟩

/-- Folding `statsAccum` from any accumulator adds the matching counts of the
registration list to every field. -/
theorem statsAccum_foldl (regs : List Registration) (acc : RegStats) :
    regs.foldl statsAccum acc =
      { total := acc.total + regs.length
        confirmed := acc.confirmed + regs.countP (fun r => decide (r.status = RegStatus.confirmed))
        pending := acc.pending + regs.countP (fun r => decide (r.status = RegStatus.pending))
        cancelled := acc.cancelled + regs.countP (fun r => decide (r.status = RegStatus.cancelled))
        checkedIn := acc.checkedIn + regs.countP (fun r => r.checkedIn)
        projectsSubmitted := acc.projectsSubmitted + regs.countP (fun r => r.projectSubmitted)
        soloParticipants := acc.soloParticipants + regs.countP (fun r => decide (r.participationType = ParticipationType.solo))
        teamParticipants := acc.teamParticipants + regs.countP (fun r => decide (r.participationType = ParticipationType.team)) } := by
  induction regs generalizing acc with
  | nil => simp
  | cons r rs ih =>
    rw [List.foldl_cons, ih]
    simp only [statsAccum, List.countP_cons, List.length_cons, RegStats.mk.injEq,
      decide_eq_true_eq]
    refine ⟨?_, ?_, ?_, ?_, ?_, ?_, ?_, ?_⟩ <;> (try split_ifs) <;> omega

/-- Claim C9 (amended): `getStats` makes a single deterministic pass and returns
the total count, status counts for `confirmed`, `pending` and `cancelled`
only (no `waitlisted` or `rejected` count is produced), the checked-in and
projects-submitted counts and the per-participation-type counts, each equal
to the number of registrations satisfying the corresponding predicate. -/
theorem getStats_fields (regs : List Registration) :
    getStats regs =
      { total := regs.length
        confirmed := regs.countP (fun r => decide (r.status = RegStatus.confirmed))
        pending := regs.countP (fun r => decide (r.status = RegStatus.pending))
        cancelled := regs.countP (fun r => decide (r.status = RegStatus.cancelled))
        checkedIn := regs.countP (fun r => r.checkedIn)
        projectsSubmitted := regs.countP (fun r => r.projectSubmitted)
        soloParticipants := regs.countP (fun r => decide (r.participationType = ParticipationType.solo))
        teamParticipants := regs.countP (fun r => decide (r.participationType = ParticipationType.team)) } := by
  rw [getStats, statsAccum_foldl]
  simp [emptyStats]

/-- Claim C9 (counterexample): on a set holding one `waitlisted` registration,
`getStats` reports total 1 while every status count it produces (`confirmed`,
`pending`, `cancelled`) is 0 — it returns no count for the `waitlisted` or
`rejected` statuses, contradicting "a count per status for each of pending,
confirmed, waitlisted, rejected, cancelled". -/
theorem getStats_waitlisted_missing :
    getStats [regWaitC] =
      { total := 1, confirmed := 0, pending := 0, cancelled := 0, checkedIn := 0,
        projectsSubmitted := 0, soloParticipants := 1, teamParticipants := 0 } ∧
    (getStats [regWaitC]).confirmed + (getStats [regWaitC]).pending +
      (getStats [regWaitC]).cancelled ≠ (getStats [regWaitC]).total := by
  exact ⟨rfl, by decide⟩

/-- Claim C6: check-in is idempotent in effect: with `checkedIn` still unset, a
check-in before `startDate` fails with `HackathonNotStarted`; at or after
`startDate` it succeeds, setting `checkedIn` and `checkInTime`, and a second
check-in on the resulting registration fails with `AlreadyCheckedIn`, so the
state after the second call equals the state after the first. -/
theorem checkIn_idempotent (reg : Registration) (hack : Hackathon) (n1 n2 : Int)
    (hc : reg.checkedIn = false) :
    (n1 < hack.startDate →
      checkInParticipant reg hack n1 = Except.error ApiError.hackathonNotStarted) ∧
    (hack.startDate ≤ n1 →
      checkInParticipant reg hack n1 =
        Except.ok { reg with checkedIn := true, checkInTime := some n1 } ∧
      checkInParticipant { reg with checkedIn := true, checkInTime := some n1 } hack n2 =
        Except.error ApiError.alreadyCheckedIn) := by
  unfold checkInParticipant
  simp only [hc, Bool.false_eq_true, if_false, if_true]
  constructor
  · intro hlt
    rw [if_pos hlt]
  · intro hle
    rw [if_neg (by omega)]
    constructor <;> trivial

/-- Claim C6 (witness): concrete instance — first check-in exactly at the start
date succeeds, the second fails with `AlreadyCheckedIn`, and a check-in one
millisecond before the start fails with `HackathonNotStarted`. -/
theorem checkIn_idempotent_witness :
    checkInParticipant regC hackC 1000000000 = Except.ok regCheckedInAtStart ∧
    checkInParticipant regCheckedInAtStart hackC 1100000000 =
      Except.error ApiError.alreadyCheckedIn ∧
    checkInParticipant regC hackC 999999999 = Except.error ApiError.hackathonNotStarted := by
  have h1 := checkIn_idempotent regC hackC 1000000000 1100000000 rfl
  have h2 := checkIn_idempotent regC hackC 999999999 0 rfl
  exact ⟨(h1.2 (by decide)).1, (h1.2 (by decide)).2, h2.1 (by decide)⟩

/-- Claim C3: cancellation of a found registration on a found hackathon fails with
`AlreadyCancelled` when the status is already `cancelled`, and otherwise
fails with `PastCancellationDeadline` exactly when
`now ≥ startDate − 24·60·60·1000`, succeeding otherwise. -/
theorem cancelRegistration_rules (st : DbState) (rid : Nat) (now : Int)
    (reg : Registration) (hack : Hackathon)
    (hr : findRegistrationById st rid = some reg)
    (hh : findHackathonById st reg.hackathon = some hack) :
    (reg.status = RegStatus.cancelled →
      cancelRegistration st rid now = Except.error ApiError.alreadyCancelled) ∧
    (reg.status ≠ RegStatus.cancelled →
      ((cancelRegistration st rid now = Except.error ApiError.pastCancellationDeadline) ↔
        hack.startDate - 24 * 60 * 60 * 1000 ≤ now) ∧
      (now < hack.startDate - 24 * 60 * 60 * 1000 →
        (cancelRegistration st rid now).isOk = true)) := by
  unfold cancelRegistration
  rw [hr]
  simp only []
  constructor
  · intro hcan
    rw [if_pos hcan]
  · intro hcan
    rw [if_neg hcan, hh]
    simp only []
    constructor
    · by_cases hd : hack.startDate - 24 * 60 * 60 * 1000 ≤ now
      · rw [if_pos hd]
        exact iff_of_true rfl hd
      · rw [if_neg hd]
        simp only [reduceCtorEq, false_iff]
        exact hd
    · intro hlt
      rw [if_neg (by omega)]
      rfl

/-- Claim C3 (witness): with `startDate = 10^9` ms, cancellation 25 hours before
the start succeeds and cancellation 23 hours before the start fails with
`PastCancellationDeadline`. -/
theorem cancelRegistration_boundary_witness :
    (cancelRegistration stC 1 (1000000000 - 25 * 3600000)).isOk = true ∧
    cancelRegistration stC 1 (1000000000 - 23 * 3600000) =
      Except.error ApiError.pastCancellationDeadline := by
  have h1 := cancelRegistration_rules stC 1 (1000000000 - 25 * 3600000) regC hackC rfl rfl
  have h2 := cancelRegistration_rules stC 1 (1000000000 - 23 * 3600000) regC hackC rfl rfl
  exact ⟨(h1.2 (by decide)).2 (by decide), ((h2.2 (by decide)).1).mpr (by decide)⟩

/-- Claim C1 (counterexample): a registration whose status is `cancelled` can be
checked in and can have a project submitted: neither `checkInParticipant` nor
`submitProject` consults the status, so with the flags unset and the
hackathon started both operations succeed and set their flags while the
status stays `cancelled`. -/
theorem cancelled_checkIn_allowed_cex :
    regCancelledC.status = RegStatus.cancelled ∧
    checkInParticipant regCancelledC hackC 1500000000 = Except.ok regCancelledCheckedIn ∧
    regCancelledCheckedIn.checkedIn = true ∧
    submitProject regCancelledC hackC pdSample 1500000000 = Except.ok regCancelledSubmitted ∧
    regCancelledSubmitted.projectSubmitted = true := by
  exact ⟨rfl, rfl, rfl, rfl, rfl⟩

/-- Claim C1 (amended): `checkIn` and `submitProject` are denied only when the flag
is already set or the hackathon has not started — the registration's status
is never consulted, so they succeed for registrations of every status,
`cancelled` included. -/
theorem flags_independent_of_status (reg : Registration) (hack : Hackathon)
    (pd : ProjectData) (now : Int) :
    (checkInParticipant reg hack now =
        Except.ok { reg with checkedIn := true, checkInTime := some now } ↔
      (reg.checkedIn = false ∧ hack.startDate ≤ now)) ∧
    (submitProject reg hack pd now =
        Except.ok { reg with projectSubmitted := true, projectDetails := some { data := pd, submissionTime := now } } ↔
      (reg.projectSubmitted = false ∧ hack.startDate ≤ now)) := by
  constructor
  · unfold checkInParticipant
    split_ifs with h1 h2
    · simp [h1]
    · exact iff_of_false (by simp) (by rintro ⟨-, hle⟩; omega)
    · exact iff_of_true rfl ⟨by simpa using h1, by omega⟩
  · unfold submitProject
    split_ifs with h1 h2
    · simp [h1]
    · exact iff_of_false (by simp) (by rintro ⟨-, hle⟩; omega)
    · exact iff_of_true rfl ⟨by simpa using h1, by omega⟩

/-- Claim C2 (counterexample): a prior `cancelled` registration for the
(hackathon, participant) pair does block a new registration: the duplicate
lookup has no status filter, so `registerForHackathon` fails with the
duplicate error even though the only existing registration is cancelled and
the hackathon is registrable. -/
theorem cancelled_blocks_reregistration_cex :
    regCancelledC.status = RegStatus.cancelled ∧
    hackC.canRegister 0 = true ∧
    registerForHackathon stCancelledPair 1 2 inputSolo 0 99 =
      Except.error ApiError.duplicateRegistration := by
  exact ⟨rfl, rfl, rfl⟩

/-- The registration pre-save hook never produces the duplicate error: its
denials are team-field, lookup, registrability, team-size or consent. -/
theorem registrationPreSave_ne_duplicate (r : Registration) (isNew : Bool)
    (lookup : Nat → Option Hackathon) (now : Int) :
    registrationPreSave r isNew lookup now ≠
      Except.error ApiError.duplicateRegistration := by
  intro heq
  unfold registrationPreSave at heq
  repeat' split at heq
  all_goals simp_all

/-- Claim C2 (amended): when the hackathon is found and registrable, creation
fails with `DuplicateRegistration` exactly when some registration — of any
status, `cancelled` included — already exists for the
(hackathon, participant) pair. -/
theorem duplicate_iff_any_pair_registration (st : DbState) (hid uid : Nat)
    (input : RegistrationInput) (now : Int) (newId : Nat) (hack : Hackathon)
    (hh : findHackathonById st hid = some hack)
    (hcr : hack.canRegister now = true) :
    (registerForHackathon st hid uid input now newId =
        Except.error ApiError.duplicateRegistration ↔
      findRegistrationByPair st hid uid ≠ none) := by
  unfold registerForHackathon
  simp only [hh, hcr, Bool.true_eq_false, if_false]
  cases hfind : findRegistrationByPair st hid uid with
  | some r => simp
  | none =>
    simp only [ne_eq, not_true_eq_false, iff_false]
    cases hps : registrationPreSave (mkRegistration newId hid uid input) true
        (findHackathonById st) now with
    | error e =>
      simp only [hps, reduceCtorEq, Except.error.injEq, not_false_eq_true]
      intro he
      exact registrationPreSave_ne_duplicate _ _ _ _ (he ▸ hps)
    | ok u => simp [hps]

/-- Claim C2 (witness): instantiating the amended rule at the concrete cancelled
pair shows the duplicate denial. -/
theorem duplicate_iff_any_pair_registration_witness :
    registerForHackathon stCancelledPair 1 2 inputSolo 0 99 =
      Except.error ApiError.duplicateRegistration :=
  (duplicate_iff_any_pair_registration stCancelledPair 1 2 inputSolo 0 99 hackC
    rfl rfl).mpr (by decide)

/-- Claim C7: every registration `registerForHackathon` successfully creates has
initial status `confirmed` (auto-confirm policy). -/
theorem register_initial_status_confirmed (st : DbState) (hid uid : Nat)
    (input : RegistrationInput) (now : Int) (newId : Nat) (st2 : DbState)
    (reg : Registration)
    (hok : registerForHackathon st hid uid input now newId = Except.ok (st2, reg)) :
    reg.status = RegStatus.confirmed := by
  unfold registerForHackathon at hok
  repeat' split at hok
  all_goals simp_all
  split at hok
  · simp_all
  · simp only [Except.ok.injEq, Prod.mk.injEq] at hok
    rcases hok with ⟨-, rfl⟩
    rfl

/-- Claim C7 (witness): the spec scenario — published hackathon, deadline ahead,
team mode with sizes 1..3, team "Foo" of two people, both consent flags set —
is accepted and the created registration's status is `confirmed`. -/
theorem register_scenario_witness :
    registerForHackathon stScen 1 2 inputTeam 0 7 = Except.ok (stScen2, regScen) ∧
    regScen.status = RegStatus.confirmed :=
  ⟨by decide,
   register_initial_status_confirmed stScen 1 2 inputTeam 0 7 stScen2 regScen (by decide)⟩

/-- Claim C10: deleting a found hackathon is denied with an error (and no state
change) exactly when some registration referencing it has a status other
than `cancelled`; with no non-cancelled registration the hackathon document
is physically deleted. -/
theorem deleteHackathon_rules (st : DbState) (hid : Nat) (hack : Hackathon)
    (hh : findHackathonById st hid = some hack) :
    ((∃ r ∈ st.registrations, r.hackathon = hid ∧ r.status ≠ RegStatus.cancelled) ↔
      deleteHackathon st hid = Except.error ApiError.hasActiveRegistrations) ∧
    (nonCancelledCount st.registrations hid = 0 →
      deleteHackathon st hid =
        Except.ok { st with hackathons := st.hackathons.filter (fun h => decide (¬ h.id = hid)) }) := by
  have hcnt : 0 < nonCancelledCount st.registrations hid ↔
      (∃ r ∈ st.registrations, r.hackathon = hid ∧ r.status ≠ RegStatus.cancelled) := by
    simp [nonCancelledCount, List.countP_pos_iff]
  unfold deleteHackathon
  rw [hh]
  simp only []
  by_cases hpos : 0 < nonCancelledCount st.registrations hid
  · rw [if_pos hpos]
    exact ⟨iff_of_true (hcnt.mp hpos) rfl, fun h0 => by omega⟩
  · rw [if_neg hpos]
    exact ⟨iff_of_false (fun hex => hpos (hcnt.mpr hex)) (by simp), fun _ => rfl⟩

/-- Claim C10 (witness): with one confirmed registration deletion is denied; with
only a cancelled registration the hackathon document is removed. -/
theorem deleteHackathon_witness :
    deleteHackathon stC 1 = Except.error ApiError.hasActiveRegistrations ∧
    deleteHackathon stCancelledPair 1 =
      Except.ok { hackathons := [], registrations := [regCancelledC] } := by
  constructor
  · exact (deleteHackathon_rules stC 1 hackC rfl).1.mp (by decide)
  · exact (deleteHackathon_rules stCancelledPair 1 hackC rfl).2 (by decide)

end SPC
